import Mathlib

/-
Verification of the Result library (OkImpl / ErrImpl classes, Try / TryAsync
adapters, and the resultToString helper).

Modelling conventions:
- A JavaScript computation that may throw is embedded in the `Except` monad:
  `Except ε α` is a computation that either returns a value of type `α` or
  throws a fault of type `ε`.
- A TypeScript union `T | null` is embedded as `Option`; a generic union
  `T | T2` as the sum `⊕`.
- A settled promise is its settlement: resolved-with-value or
  rejected-with-fault, i.e. again `Except`.
-/

namespace Okay

/-- The two-variant Result data model: class OkImpl holds `value`, class
ErrImpl holds `error`; a Result is exactly one of the two. -/
inductive Result (α ε : Type) where
  | Ok (value : α) : Result α ε
  | Err (error : ε) : Result α ε
deriving DecidableEq

/-- OkImpl.isOk = true, ErrImpl.isOk = false (readonly flags). -/
def Result.isOk : Result α ε → Bool
  | .Ok _ => true
  | .Err _ => false

/-- OkImpl.isError = false, ErrImpl.isError = true (readonly flags). -/
def Result.isError : Result α ε → Bool
  | .Ok _ => false
  | .Err _ => true

/-- getOrNull: OkImpl returns this.value, ErrImpl returns null
(`T | null` embedded as `Option α`). -/
def Result.getOrNull : Result α ε → Option α
  | .Ok v => some v
  | .Err _ => none

/-- getOrDefault(defaultVal): OkImpl returns this.value (the default unused),
ErrImpl returns defaultVal (the union `T | T2` embedded as `α ⊕ β`). -/
def Result.getOrDefault : Result α ε → β → α ⊕ β
  | .Ok v, _ => Sum.inl v
  | .Err _, d => Sum.inr d

/-- getOrThrow: OkImpl returns this.value; ErrImpl throws this.error
(a possibly-throwing computation, hence `Except ε α`). -/
def Result.getOrThrow : Result α ε → Except ε α
  | .Ok v => Except.ok v
  | .Err e => Except.error e

/-- errorOrNull: OkImpl returns null, ErrImpl returns this.error. -/
def Result.errorOrNull : Result α ε → Option ε
  | .Ok _ => none
  | .Err e => some e

/-- map(fn): OkImpl returns Ok(fn(this.value)) with no protection around the
call to fn (if fn throws, the fault propagates, hence the `Except θ` result);
ErrImpl returns this (the same error payload, only re-typed). -/
def Result.map : Result α ε → (α → Except θ β) → Except θ (Result β ε)
  | .Ok v, fn => (fn v).bind (fun b => Except.ok (Result.Ok b))
  | .Err e, _ => Except.ok (Result.Err e)

/-- mapError(fn): OkImpl returns this; ErrImpl returns Err(fn(this.error)),
again with no protection around the call to fn. -/
def Result.mapError : Result α ε → (ε → Except θ η) → Except θ (Result α η)
  | .Ok v, _ => Except.ok (Result.Ok v)
  | .Err e, fn => (fn e).bind (fun e2 => Except.ok (Result.Err e2))

/-- fold(okFn, errFn): OkImpl returns okFn(this.value), ErrImpl returns
errFn(this.error); the callbacks themselves may throw. -/
def Result.fold : Result α ε → (α → Except θ β) → (ε → Except θ β) → Except θ β
  | .Ok v, okFn, _ => okFn v
  | .Err e, _, errFn => errFn e

/-- Embedding of a non-raising function used as a callback: it always
returns normally. -/
def pureFn (f : α → β) : α → Except θ β := fun x => Except.ok (f x)

/-- A try/catch block: run the body; on a thrown fault, run the handler. -/
def tryCatch (body : Except ε α) (handler : ε → Except ε α) : Except ε α :=
  match body with
  | Except.ok a => Except.ok a
  | Except.error e => handler e

/-- Try(fn): try \x7b return Ok(fn()) \x7d catch (e) \x7b return Err(e) \x7d.
The zero-argument callable fn may throw, so it is `Unit → Except ε α`. -/
def Try (fn : Unit → Except ε α) : Except ε (Result α ε) :=
  tryCatch ((fn ()).bind (fun x => Except.ok (Result.Ok x)))
    (fun e => Except.ok (Result.Err e))

/-- A settled promise is its settlement: resolved with a value or rejected
with a fault. -/
abbrev Promise (ε α : Type) : Type := Except ε α

/-- Awaiting a settled promise yields its value or re-raises its rejection
fault into the surrounding computation. -/
def awaitPromise (p : Promise ε α) : Except ε α := p

/-- TryAsync(fn): try \x7b return Ok(await fn()) \x7d catch (e)
\x7b return Err(e) \x7d inside an async function, whose own body becomes the
returned promise. fn may throw synchronously before producing its promise,
hence `Unit → Except ε (Promise ε α)`. -/
def TryAsync (fn : Unit → Except ε (Promise ε α)) : Promise ε (Result α ε) :=
  tryCatch
    ((fn ()).bind (fun p => (awaitPromise p).bind (fun v => Except.ok (Result.Ok v))))
    (fun e => Except.ok (Result.Err e))

/-
JavaScript value model, used for the claims about toString and about raw
thrown values. `errObj m` is an Error instance with message m (an Error's
own `message` property is non-enumerable, so JSON.stringify renders an
Error instance as an empty object). `obj` is a plain object given by its
enumerable own properties in insertion order.
-/

mutual

inductive JSValue where
  | null : JSValue
  | undef : JSValue
  | bool (b : Bool) : JSValue
  | num (n : Int) : JSValue
  | str (s : String) : JSValue
  | errObj (message : String) : JSValue
  | obj (fields : JSFields) : JSValue
deriving DecidableEq

inductive JSFields where
  | nil : JSFields
  | cons (key : String) (value : JSValue) (rest : JSFields) : JSFields
deriving DecidableEq

end

/-- JSON string escaping for one character. -/
def escChar (c : Char) : String :=
  if c = '"' then "\\\""
  else if c = '\\' then "\\\\"
  else if c = '\n' then "\\n"
  else if c = '\r' then "\\r"
  else if c = '\t' then "\\t"
  else String.singleton c

/-- JSON quoting of a string. -/
def quoteJSON (s : String) : String :=
  "\"" ++ String.join (s.toList.map escChar) ++ "\""

/-- The indentation gap of JSON.stringify(value, null, 2). -/
def jsonGap : String := "  "

mutual

/-- JSON.stringify(v, null, 2) at the indentation level `ind`; `none` models
stringify returning undefined (for an undefined input). An Error instance has
no enumerable own properties, so it renders as an empty object. -/
def stringifyVal (ind : String) : JSValue → Option String
  | .null => some "null"
  | .undef => none
  | .bool b => some (if b then "true" else "false")
  | .num n => some (toString n)
  | .str s => some (quoteJSON s)
  | .errObj _ => some "\x7b\x7d"
  | .obj fs =>
    let members := stringifyFields (ind ++ jsonGap) fs
    some (if members.isEmpty then "\x7b\x7d"
      else "\x7b" ++ "\n" ++ ind ++ jsonGap
        ++ String.intercalate (",\n" ++ ind ++ jsonGap) members
        ++ "\n" ++ ind ++ "\x7d")

/-- The rendered `"key": value` members of an object; properties whose value
serializes to undefined are dropped, as JSON.stringify does. -/
def stringifyFields (ind : String) : JSFields → List String
  | .nil => []
  | .cons k v rest =>
    match stringifyVal ind v with
    | none => stringifyFields ind rest
    | some s => (quoteJSON k ++ ": " ++ s) :: stringifyFields ind rest

end

/-- A template literal position: stringify's undefined renders as the text
"undefined". -/
def tmpl : Option String → String
  | some s => s
  | none => "undefined"

/-- Collapse the `Option` embedding of `T | null` back to a single JS value:
absent is null. -/
def optToJS : Option JSValue → JSValue
  | some v => v
  | none => JSValue.null

/-- A value is nullish (null or undefined), the condition tested by `??`. -/
def nullish : JSValue → Bool
  | .null => true
  | .undef => true
  | _ => false

/-- The `a ?? b` operator: b when a is nullish, otherwise a. -/
def coalesce (a b : JSValue) : JSValue :=
  if nullish a then b else a

/-- resultToString (src/src/utils.ts): picks the prefix from isOk and
serializes `result.getOrNull() ?? result.errorOrNull()` with
JSON.stringify(·, null, 2) inside a template literal. -/
def resultToString (result : Result JSValue JSValue) : String :=
  let pfx := if result.isOk then "Ok" else "Err"
  pfx ++ "(" ++ tmpl (stringifyVal ""
    (coalesce (optToJS result.getOrNull) (optToJS result.errorOrNull))) ++ ")"

/-- The `instanceof Error` test. -/
def isErrorInstance : JSValue → Bool
  | .errObj _ => true
  | _ => false

/-- toString: OkImpl delegates to resultToString; ErrImpl special-cases
`this.error instanceof Error`, rendering "Err(<message>)", and otherwise
delegates to resultToString. -/
def Result.toString : Result JSValue JSValue → String
  | Result.Ok v => resultToString (Result.Ok v)
  | Result.Err e =>
    match e with
    | JSValue.errObj m => "Err(" ++ m ++ ")"
    | _ => resultToString (Result.Err e)

/-- Key lookup among an object's own properties. -/
def JSFields.lookupKey : JSFields → String → Option JSValue
  | .nil, _ => none
  | .cons k v rest, key => if k = key then some v else rest.lookupKey key

/-- A payload "exposes a human-readable message attribute": it is an Error
instance (whose message is m), or a plain object with a string-valued
`message` property. -/
def hasMessageAttr : JSValue → Bool
  | .errObj _ => true
  | .obj fs =>
    match fs.lookupKey "message" with
    | some (JSValue.str _) => true
    | _ => false
  | _ => false

/-
Object-identity model. OkImpl and ErrImpl are classes: `new OkImpl(v)` /
`new ErrImpl(e)` allocate a fresh object, and every field (isOk, isError,
value, error) is readonly or assigned only in the constructor — no method
body contains an assignment. An object is therefore an address paired with
its immutable construction record; methods run in an allocation monad whose
only state is the next fresh address.
-/

/-- A reference to a Result object: its address and the variant record it
was constructed with. -/
structure RRef (α ε : Type) where
  addr : Nat
  cell : Result α ε
deriving DecidableEq

/-- The allocation monad: state is the next fresh address. -/
def AllocM (γ : Type) : Type := Nat → γ × Nat

/-- `new OkImpl(v)`: allocates a fresh object at the next address. -/
def newOk (v : α) : AllocM (RRef α ε) := fun n => (⟨n, Result.Ok v⟩, n + 1)

/-- `new ErrImpl(e)`: allocates a fresh object at the next address. -/
def newErr (e : ε) : AllocM (RRef α ε) := fun n => (⟨n, Result.Err e⟩, n + 1)

/-- map at the object level: OkImpl.map returns Ok(fn(this.value)), a fresh
allocation; ErrImpl.map returns `this` — the very same object (same address,
same record), with no allocation. -/
def mapRef (r : RRef α ε) (f : α → β) : AllocM (RRef β ε) :=
  match r.cell with
  | Result.Ok v => newOk (f v)
  | Result.Err e => fun n => (⟨r.addr, Result.Err e⟩, n)

/-- mapError at the object level: ErrImpl.mapError returns Err(fn(this.error)),
a fresh allocation; OkImpl.mapError returns `this` with no allocation. -/
def mapErrorRef (r : RRef α ε) (f : ε → η) : AllocM (RRef α η) :=
  match r.cell with
  | Result.Ok v => fun n => (⟨r.addr, Result.Ok v⟩, n)
  | Result.Err e => newErr (f e)

/-
Claim theorems.
-/

/-- C1: for every zero-argument function fn, if fn() returns x then Try(fn)
is Ok(x); if fn() raises fault e then Try(fn) is Err(e), the payload being
exactly that fault, captured once and not wrapped; and in every case Try
returns a Result normally — no fault escapes to the caller. -/
theorem try_adapter_spec (fn : Unit → Except ε α) :
    (∀ x, fn () = Except.ok x → Try fn = Except.ok (Result.Ok x)) ∧
    (∀ e, fn () = Except.error e → Try fn = Except.ok (Result.Err e)) ∧
    (∃ r, Try fn = Except.ok r) := by
  refine ⟨fun x hx => ?_, fun e he => ?_, ?_⟩
  · simp [Try, tryCatch, hx, Except.bind]
  · simp [Try, tryCatch, he, Except.bind]
  · cases h : fn () with
    | ok x => exact ⟨Result.Ok x, by simp [Try, tryCatch, h, Except.bind]⟩
    | error e => exact ⟨Result.Err e, by simp [Try, tryCatch, h, Except.bind]⟩

/-- Witness for try_adapter_spec at concrete inputs. -/
theorem try_adapter_spec_witness :
    Try (fun _ : Unit => (Except.ok 3 : Except String Nat)) =
      Except.ok (Result.Ok 3) ∧
    Try (fun _ : Unit => (Except.error "fault" : Except String Nat)) =
      Except.ok (Result.Err "fault") :=
  ⟨(try_adapter_spec (fun _ : Unit => (Except.ok 3 : Except String Nat))).1 3 rfl,
   (try_adapter_spec (fun _ : Unit =>
     (Except.error "fault" : Except String Nat))).2.1 "fault" rfl⟩

/-- C2: for every zero-argument asynchronous function fn, TryAsync(fn)
settles with Ok(x) when fn's promise settles with x, with Err(e) when the
promise rejects with e or fn throws e synchronously before suspension, and
the promise returned by TryAsync never rejects: it always settles with a
Result. -/
theorem tryAsync_adapter_spec (fn : Unit → Except ε (Promise ε α)) :
    (∀ p x, fn () = Except.ok p → awaitPromise p = Except.ok x →
      TryAsync fn = Except.ok (Result.Ok x)) ∧
    (∀ p e, fn () = Except.ok p → awaitPromise p = Except.error e →
      TryAsync fn = Except.ok (Result.Err e)) ∧
    (∀ e, fn () = Except.error e → TryAsync fn = Except.ok (Result.Err e)) ∧
    (∃ r, TryAsync fn = Except.ok r) := by
  refine ⟨fun p x hp hx => ?_, fun p e hp he => ?_, fun e he => ?_, ?_⟩
  · simp only [awaitPromise] at hx
    simp [TryAsync, tryCatch, awaitPromise, hp, hx, Except.bind]
  · simp only [awaitPromise] at he
    simp [TryAsync, tryCatch, awaitPromise, hp, he, Except.bind]
  · simp [TryAsync, tryCatch, he, Except.bind]
  · cases h : fn () with
    | error e =>
      exact ⟨Result.Err e, by simp [TryAsync, tryCatch, h, Except.bind]⟩
    | ok p =>
      cases hp : p with
      | ok x =>
        exact ⟨Result.Ok x,
          by simp [TryAsync, tryCatch, awaitPromise, h, hp, Except.bind]⟩
      | error e =>
        exact ⟨Result.Err e,
          by simp [TryAsync, tryCatch, awaitPromise, h, hp, Except.bind]⟩

/-- Witness for tryAsync_adapter_spec: resolution, rejection and a
synchronous throw, at concrete inputs. -/
theorem tryAsync_adapter_spec_witness :
    TryAsync (fun _ : Unit =>
        (Except.ok (Except.ok 3) : Except String (Promise String Nat))) =
      Except.ok (Result.Ok 3) ∧
    TryAsync (fun _ : Unit =>
        (Except.ok (Except.error "rej") : Except String (Promise String Nat))) =
      Except.ok (Result.Err "rej") ∧
    TryAsync (fun _ : Unit =>
        (Except.error "sync" : Except String (Promise String Nat))) =
      Except.ok (Result.Err "sync") :=
  ⟨(tryAsync_adapter_spec (fun _ : Unit =>
      (Except.ok (Except.ok 3) : Except String (Promise String Nat)))).1
      (Except.ok 3) 3 rfl rfl,
   (tryAsync_adapter_spec (fun _ : Unit =>
      (Except.ok (Except.error "rej") : Except String (Promise String Nat)))).2.1
      (Except.error "rej") "rej" rfl rfl,
   (tryAsync_adapter_spec (fun _ : Unit =>
      (Except.error "sync" : Except String (Promise String Nat)))).2.2.1
      "sync" rfl⟩

/-- C3: the accessor table of the two variants: flags, getOrNull,
errorOrNull and getOrDefault, on Ok(v) and on Err(e), with the fallback d
unused on the Ok side and returned on the Err side. -/
theorem variant_accessor_spec (v : α) (e : ε) (d : β) :
    (Result.Ok v : Result α ε).isOk = true ∧
    (Result.Ok v : Result α ε).isError = false ∧
    (Result.Ok v : Result α ε).getOrNull = some v ∧
    (Result.Ok v : Result α ε).errorOrNull = none ∧
    (Result.Ok v : Result α ε).getOrDefault d = Sum.inl v ∧
    (Result.Err e : Result α ε).isOk = false ∧
    (Result.Err e : Result α ε).isError = true ∧
    (Result.Err e : Result α ε).getOrNull = none ∧
    (Result.Err e : Result α ε).errorOrNull = some e ∧
    (Result.Err e : Result α ε).getOrDefault d = Sum.inr d :=
  ⟨rfl, rfl, rfl, rfl, rfl, rfl, rfl, rfl, rfl, rfl⟩

/-- C4: getOrThrow on Ok(v) returns v without raising; on Err(e) it raises
exactly the stored payload e itself, identity-preserved and unwrapped. -/
theorem getOrThrow_spec (v : α) (e : ε) :
    (Result.Ok v : Result α ε).getOrThrow = Except.ok v ∧
    (Result.Err e : Result α ε).getOrThrow = Except.error e :=
  ⟨rfl, rfl⟩

/-- C5: functor laws for map and mapError with non-raising callbacks:
mapping twice composes on the Ok side, map is the identity on Err (payload
untouched), mapError transforms the Err payload, and mapError is the
identity on Ok — the callback is never applied on the wrong side. -/
theorem map_functor_laws {α β γ ε η θ : Type} (v : α) (e : ε)
    (f : α → β) (g : β → γ) (k : ε → η) :
    ((Result.Ok v : Result α ε).map (pureFn f : α → Except θ β)).bind
      (fun r => r.map (pureFn g : β → Except θ γ)) =
      (Result.Ok v : Result α ε).map
        (pureFn (fun x => g (f x)) : α → Except θ γ) ∧
    (Result.Err e : Result α ε).map (pureFn f : α → Except θ β) =
      Except.ok (Result.Err e) ∧
    (Result.Err e : Result α ε).mapError (pureFn k : ε → Except θ η) =
      Except.ok (Result.Err (k e)) ∧
    (Result.Ok v : Result α ε).mapError (pureFn k : ε → Except θ η) =
      Except.ok (Result.Ok v) :=
  ⟨rfl, rfl, rfl, rfl⟩

/-- C7: fold applies the ok callback to an Ok payload and the err callback
to an Err payload; in particular Ok(42).map(x => x * 2).fold(v => v,
e => -1) computes 84. -/
theorem fold_spec {α β ε θ : Type} (v : α) (e : ε)
    (okFn : α → Except θ β) (errFn : ε → Except θ β) :
    (Result.Ok v : Result α ε).fold okFn errFn = okFn v ∧
    (Result.Err e : Result α ε).fold okFn errFn = errFn e ∧
    ((Result.Ok 42 : Result Int String).map
        (pureFn (fun x => x * 2) : Int → Except String Int)).bind
      (fun r => r.fold (pureFn (fun x => x)) (pureFn (fun _ => -1))) =
      Except.ok 84 :=
  ⟨rfl, rfl, rfl⟩

/-- C8: if the callback raises on an Ok payload, map lets the fault escape
as a fault (not as a Result); Try on the same computation would capture it
as an Err, so the contrast is deliberate. -/
theorem map_fault_spec {α β ε θ : Type} (v : α) (fn : α → Except θ β)
    (e : θ) (h : fn v = Except.error e) :
    (Result.Ok v : Result α ε).map fn = Except.error e ∧
    Try (fun _ : Unit => fn v) = Except.ok (Result.Err e) := by
  constructor
  · simp [Result.map, h, Except.bind]
  · simp [Try, tryCatch, h, Except.bind]

/-- Witness for map_fault_spec at a concrete raising callback. -/
theorem map_fault_spec_witness :
    (Result.Ok 1 : Result Nat Nat).map
        (fun _ => (Except.error "boom" : Except String Nat)) =
      Except.error "boom" ∧
    Try (fun _ : Unit => (Except.error "boom" : Except String Nat)) =
      Except.ok (Result.Err "boom") :=
  map_fault_spec 1 (fun _ => (Except.error "boom" : Except String Nat))
    "boom" rfl

/-- A plain (non-Error) object that exposes a string-valued message
attribute. -/
def msgObj : JSValue :=
  JSValue.obj (JSFields.cons "message" (JSValue.str "boom") JSFields.nil)

/-- C6 counterexample: the payload msgObj exposes a human-readable message
attribute, yet toString on Err(msgObj) does not render "Err(boom)" — the
code only takes the message path for instanceof Error payloads, so the
claim's "whenever the error payload exposes a message attribute" fails
here. -/
theorem toString_message_attr_counterexample :
    hasMessageAttr msgObj = true ∧
    (Result.Err msgObj : Result JSValue JSValue).toString ≠ "Err(boom)" := by
  exact ⟨rfl, by decide⟩

/-- C6 amended: Ok renders through the structural serializer; Err renders
"Err(<message>)" exactly when the payload is an Error instance, and renders
through the structural serializer for every other payload; in particular
the Failure produced by Try of a function throwing Error("boom") renders
"Err(boom)". -/
theorem toString_spec (v e : JSValue) (m : String)
    (h : isErrorInstance e = false) :
    (Result.Ok v : Result JSValue JSValue).toString =
      resultToString (Result.Ok v) ∧
    (Result.Err (JSValue.errObj m) : Result JSValue JSValue).toString =
      "Err(" ++ m ++ ")" ∧
    (Result.Err e : Result JSValue JSValue).toString =
      resultToString (Result.Err e) ∧
    Try (fun _ : Unit =>
        (Except.error (JSValue.errObj "boom") : Except JSValue JSValue)) =
      Except.ok (Result.Err (JSValue.errObj "boom")) ∧
    (Result.Err (JSValue.errObj "boom") : Result JSValue JSValue).toString =
      "Err(boom)" := by
  refine ⟨rfl, rfl, ?_, rfl, rfl⟩
  cases e <;> first | rfl | simp [isErrorInstance] at h

/-- Witness for toString_spec at a concrete non-Error payload. -/
theorem toString_spec_witness :
    (Result.Err (JSValue.str "x") : Result JSValue JSValue).toString =
      resultToString (Result.Err (JSValue.str "x")) :=
  (toString_spec JSValue.null (JSValue.str "x") "m" rfl).2.2.1

/-- C9 counterexample: in the object-identity model, map on an Err source at
address 0 returns an object with the same address 0 and does not advance the
allocation counter — it returns the source object itself (the code returns
this), not a new Result, refuting "the transform always produces a new
Result". -/
theorem map_identity_counterexample :
    (mapRef (⟨0, Result.Err 7⟩ : RRef Nat Nat) (fun x => x + 1) 1).1 =
      (⟨0, Result.Err 7⟩ : RRef Nat Nat) ∧
    (mapRef (⟨0, Result.Err 7⟩ : RRef Nat Nat) (fun x => x + 1) 1).2 = 1 :=
  ⟨rfl, rfl⟩

/-- C9 amended: map and mapError never mutate any object (fields are
readonly and set only in the constructor, so a call only reads the source
and possibly allocates): on the acting side they allocate a fresh Result at
the next free address, distinct from the source; on the no-op side they
return the source object itself — same address, same tag, same payload —
with no allocation. -/
theorem map_no_mutation_spec {α β ε η : Type} (r : RRef α ε) (f : α → β)
    (g : ε → η) (n : Nat) :
    (∀ v, r.cell = Result.Ok v →
      mapRef r f n = (⟨n, Result.Ok (f v)⟩, n + 1)) ∧
    (∀ e, r.cell = Result.Err e →
      mapRef r f n = (⟨r.addr, Result.Err e⟩, n)) ∧
    (∀ e, r.cell = Result.Err e →
      mapErrorRef r g n = (⟨n, Result.Err (g e)⟩, n + 1)) ∧
    (∀ v, r.cell = Result.Ok v →
      mapErrorRef r g n = (⟨r.addr, Result.Ok v⟩, n)) ∧
    (r.addr < n → ∀ v, r.cell = Result.Ok v →
      (mapRef r f n).1.addr ≠ r.addr) ∧
    (r.addr < n → ∀ e, r.cell = Result.Err e →
      (mapErrorRef r g n).1.addr ≠ r.addr) := by
  refine ⟨fun v hv => ?_, fun e he => ?_, fun e he => ?_, fun v hv => ?_,
    fun hlt v hv => ?_, fun hlt e he => ?_⟩
  · simp [mapRef, newOk, hv]
  · simp [mapRef, he]
  · simp [mapErrorRef, newErr, he]
  · simp [mapErrorRef, hv]
  · simp only [mapRef, newOk, hv]
    omega
  · simp only [mapErrorRef, newErr, he]
    omega

/-- Witness for map_no_mutation_spec: a fresh allocation on the acting side,
the same object back on the no-op side, and freshness of the new address. -/
theorem map_no_mutation_spec_witness :
    mapRef (⟨0, Result.Ok 5⟩ : RRef Nat Nat) (fun x => x + 1) 1 =
      (⟨1, Result.Ok 6⟩, 2) ∧
    mapErrorRef (⟨0, Result.Ok 5⟩ : RRef Nat Nat) (fun x => x * 2) 1 =
      (⟨0, Result.Ok 5⟩, 1) ∧
    (mapRef (⟨0, Result.Ok 5⟩ : RRef Nat Nat) (fun x => x + 1) 1).1.addr ≠ 0 :=
  ⟨(map_no_mutation_spec ⟨0, Result.Ok 5⟩ (fun x => x + 1)
      (fun x => x * 2) 1).1 5 rfl,
   (map_no_mutation_spec ⟨0, Result.Ok 5⟩ (fun x => x + 1)
      (fun x => x * 2) 1).2.2.2.1 5 rfl,
   (map_no_mutation_spec ⟨0, Result.Ok 5⟩ (fun x => x + 1)
      (fun x => x * 2) 1).2.2.2.2.1 (by decide) 5 rfl⟩

/-- C10: Try stores a non-Error thrown value as-is — the Err payload is the
exact raw thrown value, neither coerced nor wrapped into an Error despite
Try's declared error type — and toString on such a Failure takes the
structural-serializer path, not the message path. -/
theorem try_raw_value_spec (e : JSValue) (h : isErrorInstance e = false) :
    Try (fun _ : Unit => (Except.error e : Except JSValue JSValue)) =
      Except.ok (Result.Err e) ∧
    (Result.Err e : Result JSValue JSValue).toString =
      resultToString (Result.Err e) := by
  constructor
  · rfl
  · cases e <;> first | rfl | simp [isErrorInstance] at h

/-- Witness for try_raw_value_spec at a concrete thrown string. -/
theorem try_raw_value_spec_witness :
    Try (fun _ : Unit =>
        (Except.error (JSValue.str "boom") : Except JSValue JSValue)) =
      Except.ok (Result.Err (JSValue.str "boom")) ∧
    (Result.Err (JSValue.str "boom") : Result JSValue JSValue).toString =
      resultToString (Result.Err (JSValue.str "boom")) :=
  try_raw_value_spec (JSValue.str "boom") rfl

end Okay
